import Mathlib

/-!
Verification of the WhatsApp webhook ingestion pipeline
(packages/whatsappb-next/src/core/webhook.ts and its types).

The development shallowly embeds the handler class: the signature verifier
(HMAC-SHA-256 over the raw body, Node Buffer hex decoding, timingSafeEqual),
the subscription handshake, the payload interpreter and orchestration in
handle, and the observer registry (on / off / emit).  Strings are modelled
as Lean strings, byte buffers as lists of naturals below 256, thrown
exceptions as Except, and the asynchronous storage and subscriber calls as
an explicit trace of actions in the order the code performs them.
-/

namespace Webhook

/-! ## Bytes and hex

Node semantics for Buffer.from(string, 'hex'): decoding proceeds two
characters at a time and is truncated at the first character that is not a
hexadecimal digit; a dangling final character (odd length) is likewise
dropped.  The Node documentation example is Buffer.from with the string
1ag123 giving the single byte 1a.  Both upper and lower case digits are
accepted.  Encoding (digest('hex')) produces lowercase. -/

/-- Hex digit value of a character, if it is one (both cases accepted);
48, 97 and 65 are the codes of the digit zero and of the two letter a
forms. -/
def hexDigitVal (c : Char) : Option Nat :=
  let n := c.toNat
  if 48 ≤ n ∧ n ≤ 57 then some (n - 48)
  else if 97 ≤ n ∧ n ≤ 102 then some (n - 87)
  else if 65 ≤ n ∧ n ≤ 70 then some (n - 55)
  else none

/-- Buffer.from(s, 'hex'): decode pairs of hex digits into bytes, truncating
at the first invalid pair and dropping a dangling odd character. -/
def jsHexDecode : List Char → List Nat
  | c1 :: c2 :: rest =>
    match hexDigitVal c1, hexDigitVal c2 with
    | some hi, some lo => (16 * hi + lo) :: jsHexDecode rest
    | _, _ => []
  | _ => []

/-- Lowercase hex digit for a value below 16 (codes 48-57 and 97-102). -/
def hexDigitChr (n : Nat) : Char :=
  Char.ofNat (if n < 10 then 48 + n else 87 + n)

/-- digest('hex'): two lowercase hex characters per byte. -/
def bytesToHexChars : List Nat → List Char
  | [] => []
  | b :: rest => hexDigitChr (b / 16) :: hexDigitChr (b % 16) :: bytesToHexChars rest

/-- digest('hex') as a Lean string. -/
def bytesToHex (bs : List Nat) : String :=
  String.mk (bytesToHexChars bs)

/-! ## UTF-8

Node createHmac(...).update(string) and Buffer.from(string) interpret the
string as UTF-8; we encode Lean characters (unicode scalar values)
accordingly. -/

/-- UTF-8 encoding of one unicode scalar value. -/
def utf8Char (c : Char) : List Nat :=
  let n := c.toNat
  if n < 0x80 then [n]
  else if n < 0x800 then
    [0xC0 + n / 0x40, 0x80 + n % 0x40]
  else if n < 0x10000 then
    [0xE0 + n / 0x1000, 0x80 + (n / 0x40) % 0x40, 0x80 + n % 0x40]
  else
    [0xF0 + n / 0x40000, 0x80 + (n / 0x1000) % 0x40, 0x80 + (n / 0x40) % 0x40,
      0x80 + n % 0x40]

/-- UTF-8 bytes of a string. -/
def utf8Encode (s : String) : List Nat :=
  s.data.flatMap utf8Char

/-! ## SHA-256 (FIPS 180-4)

Words are naturals reduced modulo 2^32; buffers are lists of bytes. -/

/-- Reduce to a 32-bit word. -/
def w32 (n : Nat) : Nat := n % 4294967296

/-- Rotate a 32-bit word right by n bits. -/
def rotr (n x : Nat) : Nat :=
  w32 (x / 2 ^ n + x % 2 ^ n * 2 ^ (32 - n))

/-- Shift a 32-bit word right by n bits. -/
def shr (n x : Nat) : Nat := x / 2 ^ n

/-- Bitwise choose. -/
def ch (x y z : Nat) : Nat := Nat.xor (Nat.land x y) (Nat.land (Nat.xor x 4294967295) z)

/-- Bitwise majority. -/
def maj (x y z : Nat) : Nat := Nat.xor (Nat.xor (Nat.land x y) (Nat.land x z)) (Nat.land y z)

/-- Big sigma 0. -/
def bsig0 (x : Nat) : Nat := Nat.xor (Nat.xor (rotr 2 x) (rotr 13 x)) (rotr 22 x)

/-- Big sigma 1. -/
def bsig1 (x : Nat) : Nat := Nat.xor (Nat.xor (rotr 6 x) (rotr 11 x)) (rotr 25 x)

/-- Small sigma 0. -/
def ssig0 (x : Nat) : Nat := Nat.xor (Nat.xor (rotr 7 x) (rotr 18 x)) (shr 3 x)

/-- Small sigma 1. -/
def ssig1 (x : Nat) : Nat := Nat.xor (Nat.xor (rotr 17 x) (rotr 19 x)) (shr 10 x)

/-- The 64 SHA-256 round constants. -/
def sha256K : List Nat :=
  [1116352408, 1899447441, 3049323471, 3921009573, 961987163,
   1508970993, 2453635748, 2870763221, 3624381080, 310598401,
   607225278, 1426881987, 1925078388, 2162078206, 2614888103,
   3248222580, 3835390401, 4022224774, 264347078, 604807628,
   770255983, 1249150122, 1555081692, 1996064986, 2554220882,
   2821834349, 2952996808, 3210313671, 3336571891, 3584528711,
   113926993, 338241895, 666307205, 773529912, 1294757372,
   1396182291, 1695183700, 1986661051, 2177026350, 2456956037,
   2730485921, 2820302411, 3259730800, 3345764771, 3516065817,
   3600352804, 4094571909, 275423344, 430227734, 506948616,
   659060556, 883997877, 958139571, 1322822218, 1537002063,
   1747873779, 1955562222, 2024104815, 2227730452, 2361852424,
   2428436474, 2756734187, 3204031479, 3329325298]

/-- Hash state: the eight working words. -/
structure Sha256St where
  a : Nat
  b : Nat
  c : Nat
  d : Nat
  e : Nat
  f : Nat
  g : Nat
  hh : Nat
deriving Repr, DecidableEq

/-- Initial hash value. -/
def sha256Init : Sha256St :=
  ⟨1779033703, 3144134277, 1013904242, 2773480762,
   1359893119, 2600822924, 528734635, 1541459225⟩

/-- One compression round for a given round constant and schedule word. -/
def sha256Round (st : Sha256St) (kw : Nat × Nat) : Sha256St :=
  let t1 := w32 (st.hh + bsig1 st.e + ch st.e st.f st.g + kw.1 + kw.2)
  let t2 := w32 (bsig0 st.a + maj st.a st.b st.c)
  ⟨w32 (t1 + t2), st.a, st.b, st.c, w32 (st.d + t1), st.e, st.f, st.g⟩

/-- Extend the schedule: given the words produced so far in reverse order,
push the next word; iterate the given number of times. -/
def sha256Extend : Nat → List Nat → List Nat
  | 0, acc => acc
  | n + 1, acc =>
    sha256Extend n
      (w32 (ssig1 (acc.getD 1 0) + acc.getD 6 0 + ssig0 (acc.getD 14 0) +
        acc.getD 15 0) :: acc)

/-- The 64-entry message schedule from one 16-word block. -/
def sha256Schedule (block : List Nat) : List Nat :=
  (sha256Extend 48 block.reverse).reverse

/-- Compress one 16-word block into the state. -/
def sha256Compress (st : Sha256St) (block : List Nat) : Sha256St :=
  let w := sha256Schedule block
  let r := (sha256K.zip w).foldl sha256Round st
  ⟨w32 (st.a + r.a), w32 (st.b + r.b), w32 (st.c + r.c), w32 (st.d + r.d),
   w32 (st.e + r.e), w32 (st.f + r.f), w32 (st.g + r.g), w32 (st.hh + r.hh)⟩

/-- Big-endian packing of bytes into 32-bit words, four at a time. -/
def bytesToWords : List Nat → List Nat
  | b0 :: b1 :: b2 :: b3 :: rest =>
    (b0 * 0x1000000 + b1 * 0x10000 + b2 * 0x100 + b3) :: bytesToWords rest
  | _ => []

/-- Big-endian bytes of one 32-bit word. -/
def wordBytes (x : Nat) : List Nat :=
  [x / 0x1000000 % 256, x / 0x10000 % 256, x / 0x100 % 256, x % 256]

/-- SHA-256 padding: append the 1 bit, zeros to 56 mod 64 bytes, and the
64-bit big-endian bit length. -/
def sha256Pad (msg : List Nat) : List Nat :=
  let l := msg.length
  let k := (64 - (l + 9) % 64) % 64
  msg ++ 0x80 :: List.replicate k 0 ++
    [8 * l / 2 ^ 56 % 256, 8 * l / 2 ^ 48 % 256, 8 * l / 2 ^ 40 % 256,
     8 * l / 2 ^ 32 % 256, 8 * l / 2 ^ 24 % 256, 8 * l / 2 ^ 16 % 256,
     8 * l / 2 ^ 8 % 256, 8 * l % 256]

/-- Fold the compression function over the word stream, 16 words per block. -/
def sha256Blocks (st : Sha256St) : List Nat → Sha256St
  | w0 :: w1 :: w2 :: w3 :: w4 :: w5 :: w6 :: w7 ::
    w8 :: w9 :: w10 :: w11 :: w12 :: w13 :: w14 :: w15 :: rest =>
    sha256Blocks
      (sha256Compress st
        [w0, w1, w2, w3, w4, w5, w6, w7, w8, w9, w10, w11, w12, w13, w14, w15])
      rest
  | _ => st

/-- SHA-256 of a byte string, as 32 bytes. -/
def sha256 (msg : List Nat) : List Nat :=
  let st := sha256Blocks sha256Init (bytesToWords (sha256Pad msg))
  wordBytes st.a ++ wordBytes st.b ++ wordBytes st.c ++ wordBytes st.d ++
    wordBytes st.e ++ wordBytes st.f ++ wordBytes st.g ++ wordBytes st.hh

/-- HMAC-SHA-256 (RFC 2104) of a message under a key, as 32 bytes.  This is
the reference semantics of Node createHmac('sha256', key).update(msg). -/
def hmacSha256 (key msg : List Nat) : List Nat :=
  let k0 := if 64 < key.length then sha256 key else key
  let kp := k0 ++ List.replicate (64 - k0.length) 0
  sha256 (kp.map (Nat.xor 0x5c) ++ sha256 (kp.map (Nat.xor 0x36) ++ msg))

/-- The createHmac('sha256', secret).update(body).digest('hex') pipeline on
Lean strings: UTF-8 encode both, run HMAC, lowercase hex. -/
def hmacSha256Hex (secret body : String) : String :=
  bytesToHex (hmacSha256 (utf8Encode secret) (utf8Encode body))

/-! ## Signature verification

WhatsAppWebhookHandler.verifySignature (webhook.ts lines 195-218).  The thrown
configuration error is an Except.error; the boolean outcome is Except.ok. -/

/-- crypto.timingSafeEqual on byte buffers: throws (none) when the lengths
differ, otherwise compares contents. -/
def timingSafeEqual (a b : List Nat) : Option Bool :=
  if a.length = b.length then some (decide (a = b)) else none

/-- JS falsiness of the optional appSecret field: absent, or present but the
empty string (the code gates on the truthiness test of this.appSecret). -/
def secretFalsy : Option String → Bool
  | none => true
  | some s => s == ""

/-- WhatsAppWebhookHandler.verifySignature: configuration check, the
required sha256= prefix, HMAC-SHA-256 of the raw body under the secret,
Buffer hex decoding of both digests, and timingSafeEqual with its
length-mismatch throw caught to false.  The JS startsWith test and the
slice(7) removing the sha256= marker are expressed on the character
sequence of the header, which is what they operate on. -/
def verifySignature (appSecret : Option String) (rawBody signatureHeader : String) :
    Except String Bool :=
  if secretFalsy appSecret then
    Except.error "App secret not configured. Cannot verify signature."
  else
    let secret := appSecret.getD ""
    if signatureHeader == "" || !("sha256=".data.isPrefixOf signatureHeader.data) then
      Except.ok false
    else
      let expectedSignature := String.mk (signatureHeader.data.drop 7)
      let computedSignature := hmacSha256Hex secret rawBody
      match timingSafeEqual (jsHexDecode expectedSignature.data)
          (jsHexDecode computedSignature.data) with
      | some r => Except.ok r
      | none => Except.ok false

/-! ## Subscription handshake

WhatsAppWebhookHandler.verify (webhook.ts lines 231-241).  A query value is
a string, a string array, or absent; TS strict equality against a string
literal only succeeds on a present plain string. -/

/-- A query parameter value as Next.js delivers it. -/
inductive JSQueryValue
  | str (s : String)
  | arr (l : List String)
deriving DecidableEq, Repr

/-- The handshake failure condition (the thrown Error). -/
inductive HandshakeError
  | handshakeFailed
deriving DecidableEq, Repr

/-- TS strict equality of an optional query value against a string: arrays
and absent values never compare equal. -/
def queryValEqStr : Option JSQueryValue → String → Bool
  | some (JSQueryValue.str s), t => s == t
  | _, _ => false

/-- WhatsAppWebhookHandler.verify: return the challenge value (whatever it
is, the code merely casts it) when mode is the subscribe literal and the
token matches the configured one; throw otherwise. -/
def verify (verifyToken : String) (query : String → Option JSQueryValue) :
    Except HandshakeError (Option JSQueryValue) :=
  let mode := query "hub.mode"
  let token := query "hub.verify_token"
  let challenge := query "hub.challenge"
  if queryValEqStr mode "subscribe" && queryValEqStr token verifyToken then
    Except.ok challenge
  else
    Except.error HandshakeError.handshakeFailed

/-! ## Payload model (types/webhooks.ts) -/

/-- The metadata block inside a change value. -/
structure ChangeMetadata where
  display_phone_number : String
  phone_number_id : String
deriving DecidableEq, Repr

/-- The text object of a text message. -/
structure TextBody where
  body : String
deriving DecidableEq, Repr

/-- The message type enum of IncomingMessage. -/
inductive MsgType
  | text
  | image
  | video
  | document
  | button
  | unknown
deriving DecidableEq, Repr

/-- The string the TS union member denotes (used by template interpolation
of msg.type). -/
def MsgType.toStr : MsgType → String
  | .text => "text"
  | .image => "image"
  | .video => "video"
  | .document => "document"
  | .button => "button"
  | .unknown => "unknown"

/-- IncomingMessage: sender, wamid, unix-seconds timestamp string, type and
the optional text payload. -/
structure IncomingMessage where
  «from» : String
  id : String
  timestamp : String
  type : MsgType
  text : Option TextBody := none
deriving DecidableEq, Repr

/-- IncomingStatusUpdate.  The status is a string: the code forwards it with
a bare type assertion (statusUpdate.status as MessageStatus), so no runtime
restriction applies. -/
structure IncomingStatusUpdate where
  id : String
  status : String
  timestamp : String
  recipient_id : String
deriving DecidableEq, Repr

/-- The value object of a change; messages and statuses are optional arrays. -/
structure ChangeValue where
  metadata : ChangeMetadata
  messages : Option (List IncomingMessage) := none
  statuses : Option (List IncomingStatusUpdate) := none
deriving DecidableEq, Repr

/-- One change of an entry (the field tag is the constant "messages"). -/
structure Change where
  value : ChangeValue
deriving DecidableEq, Repr

/-- One entry of a payload: the WABA id and the changes array. -/
structure Entry where
  id : String
  changes : List Change
deriving DecidableEq, Repr

/-- WhatsAppWebhookPayload (the object tag is constant).  An absent entry
array and an empty one are indistinguishable to the code (both give
undefined at index 0 through the optional chain), so both are the empty
list here. -/
structure WhatsAppWebhookPayload where
  entry : List Entry
deriving DecidableEq, Repr

/-- WebhookMetadata attached to every emitted event. -/
structure WebhookMetadata where
  phoneNumberId : String
  displayPhoneNumber : String
  wabaId : String
deriving DecidableEq, Repr

/-- WebhookEvent: the tagged union dispatched to observers.  The error
variant carries the failure message and the original event as context. -/
inductive Event
  | messageReceived (message : IncomingMessage) (metadata : WebhookMetadata)
  | statusUpdated (status : IncomingStatusUpdate) (metadata : WebhookMetadata)
  | error (err : String) (context : Option Event)

/-- Decidable equality of events, written out because the derive handler
does not support the nested recursion through the optional context. -/
def Event.decEq : (a b : Event) → Decidable (a = b)
  | .messageReceived m1 d1, .messageReceived m2 d2 =>
    if h : m1 = m2 ∧ d1 = d2 then isTrue (by rw [h.1, h.2])
    else isFalse (by intro he; injection he with h1 h2; exact h ⟨h1, h2⟩)
  | .statusUpdated s1 d1, .statusUpdated s2 d2 =>
    if h : s1 = s2 ∧ d1 = d2 then isTrue (by rw [h.1, h.2])
    else isFalse (by intro he; injection he with h1 h2; exact h ⟨h1, h2⟩)
  | .error e1 none, .error e2 none =>
    if h : e1 = e2 then isTrue (by rw [h])
    else isFalse (by intro he; injection he with h1 h2; exact h h1)
  | .error e1 (some c1), .error e2 (some c2) =>
    match Event.decEq c1 c2 with
    | isTrue hc =>
      if h : e1 = e2 then isTrue (by rw [h, hc])
      else isFalse (by intro he; injection he with h1 h2; exact h h1)
    | isFalse hc =>
      isFalse (by
        intro he; injection he with h1 h2; injection h2 with h3; exact hc h3)
  | .error _ none, .error _ (some _) =>
    isFalse (by intro he; injection he with h1 h2; exact Option.noConfusion h2)
  | .error _ (some _), .error _ none =>
    isFalse (by intro he; injection he with h1 h2; exact Option.noConfusion h2)
  | .messageReceived _ _, .statusUpdated _ _ => isFalse (by intro he; exact Event.noConfusion he)
  | .messageReceived _ _, .error _ _ => isFalse (by intro he; exact Event.noConfusion he)
  | .statusUpdated _ _, .messageReceived _ _ => isFalse (by intro he; exact Event.noConfusion he)
  | .statusUpdated _ _, .error _ _ => isFalse (by intro he; exact Event.noConfusion he)
  | .error _ _, .messageReceived _ _ => isFalse (by intro he; exact Event.noConfusion he)
  | .error _ _, .statusUpdated _ _ => isFalse (by intro he; exact Event.noConfusion he)

instance : DecidableEq Event := Event.decEq

/-- Nesting depth of the error context chain of an event. -/
def Event.depth : Event → Nat
  | .messageReceived _ _ => 0
  | .statusUpdated _ _ => 0
  | .error _ none => 0
  | .error _ (some ctx) => Event.depth ctx + 1


/-- WhatsAppMessageRecord (db/types.ts) as constructed by handle; the Date
is milliseconds since the epoch, none for an invalid date. -/
structure WhatsAppMessageRecord where
  wamid : String
  phoneNumberId : String
  customerNumber : String
  type : MsgType
  content : String
  direction : String
  status : String
  timestamp : Option Int
  metadata : IncomingMessage
deriving DecidableEq, Repr

/-- Leading decimal digits of a character list, none when there is none
(parseInt NaN). -/
def leadDigits (cs : List Char) : Option Nat :=
  let ds := cs.takeWhile Char.isDigit
  if ds.isEmpty then none
  else some (ds.foldl (fun a c => 10 * a + (c.toNat - '0'.toNat)) 0)

/-- JS parseInt with radix 10 behaviour on the decimal strings the platform
sends: skip leading whitespace, an optional sign, then the longest digit
prefix; NaN (none) when no digit follows. -/
def jsParseInt (s : String) : Option Int :=
  match s.data.dropWhile Char.isWhitespace with
  | '-' :: rest => (leadDigits rest).map (fun n => -(n : Int))
  | '+' :: rest => (leadDigits rest).map (fun n => (n : Int))
  | rest => (leadDigits rest).map (fun n => (n : Int))

/-- The record handle persists for an incoming message (webhook.ts lines
277-287).  content is the expression msg.text?.body followed by the JS
or-else with the media placeholder: the placeholder is taken both when the
text object is absent and when its body is the empty string, because the
empty string is falsy. -/
def mkMessageRecord (cv : ChangeValue) (msg : IncomingMessage) : WhatsAppMessageRecord :=
  { wamid := msg.id
    phoneNumberId := cv.metadata.phone_number_id
    customerNumber := msg.«from»
    type := msg.type
    content :=
      match msg.text with
      | some t => if t.body == "" then "Media: " ++ msg.type.toStr else t.body
      | none => "Media: " ++ msg.type.toStr
    direction := "inbound"
    status := "delivered"
    timestamp := (jsParseInt msg.timestamp).map (fun n => n * 1000)
    metadata := msg }

/-! ## Observer registry (webhook.ts lines 92, 120-170)

A handler is named by a natural number; its code is an environment
parameter mapping handler and event to none (normal return) or some message
(it threw / rejected with that failure).  The listeners Map of Sets is a
function from event type to its insertion-ordered duplicate-free handler
list. -/

/-- The three event type tags. -/
inductive EvType
  | messageReceived
  | statusUpdated
  | error
deriving DecidableEq, Repr

/-- The listeners registry: per event type, the Set of handlers in
insertion order.  An absent Map entry and an empty Set behave alike in the
code (the loop body runs zero times), so both are the empty list. -/
def Registry : Type := EvType → List Nat

/-- What each handler does when invoked: none for a normal return, some
failure message when it throws or rejects. -/
def Behavior : Type := Nat → Event → Option String

/-- WhatsAppWebhookHandler.on: Set.add, a no-op when the handler is already
registered for the type, otherwise appended at the end. -/
def Registry.on (R : Registry) (t : EvType) (h : Nat) : Registry :=
  fun t' => if t' = t then (if h ∈ R t then R t else R t ++ [h]) else R t'

/-- WhatsAppWebhookHandler.off: Set.delete, removing the handler when
present and doing nothing otherwise.  The unsubscribe closure returned by
on performs exactly this call. -/
def Registry.off (R : Registry) (t : EvType) (h : Nat) : Registry :=
  fun t' => if t' = t then (R t).erase h else R t'

/-- The observable steps of one handle call, in execution order. -/
inductive Action
  | saveMessage (record : WhatsAppMessageRecord)
  | updateStatus (wamid : String) (status : String)
  | emitted (t : EvType) (event : Event)
  | invoked (handler : Nat) (event : Event)
deriving DecidableEq

/-- One iteration of emit's loop over the handlers of the dispatched type:
the awaited invocation, and, when the handler throws and the current event
type is not the error tag, the synthesized error emission, which invokes
every error listener (their own failures hit the eventType guard and are
swallowed, so they contribute nothing further). -/
def runHandler (behav : Behavior) (R : Registry) (t : EvType) (ev : Event)
    (h : Nat) : List Action :=
  Action.invoked h ev ::
    match behav h ev with
    | none => []
    | some e =>
      if t = EvType.error then []
      else
        Action.emitted EvType.error (Event.error e (some ev)) ::
          (R EvType.error).map (fun h2 => Action.invoked h2 (Event.error e (some ev)))

/-- WhatsAppWebhookHandler.emit (webhook.ts lines 149-170).  The recursive
this.emit of the error tag is inlined: the eventType guard cuts the
recursion at depth one, and at that depth every failure is swallowed, so
the inner emission is exactly one emitted entry plus one invocation per
error listener — which is what runHandler records. -/
def emit (behav : Behavior) (R : Registry) (t : EvType) (ev : Event) : List Action :=
  Action.emitted t ev :: ((R t).map (runHandler behav R t ev)).flatten

/-- The result object of handle; the status strings are the TS literals. -/
structure HandleResult where
  status : String
  id : Option String := none
  value : Option String := none
deriving DecidableEq, Repr

/-- WhatsAppWebhookHandler.handle (webhook.ts lines 254-322), returning the
result together with the trace of storage calls, emissions and handler
invocations in the order the code performs them.  storageConfigured is the
truthiness of this.storage; the storage collaborator itself only ever
receives the recorded calls. -/
def handle (storageConfigured : Bool) (behav : Behavior) (R : Registry)
    (payload : WhatsAppWebhookPayload) : HandleResult × List Action :=
  match payload.entry.head? with
  | none => (⟨"ignored", none, none⟩, [])
  | some entry =>
    match entry.changes.head? with
    | none => (⟨"ignored", none, none⟩, [])
    | some change =>
      let changes := change.value
      let metadata : WebhookMetadata :=
        ⟨changes.metadata.phone_number_id, changes.metadata.display_phone_number,
          entry.id⟩
      match changes.messages with
      | some (msg :: _) =>
        let ev := Event.messageReceived msg metadata
        (⟨"message_received", some msg.id, none⟩,
          (if storageConfigured then [Action.saveMessage (mkMessageRecord changes msg)]
            else []) ++ emit behav R EvType.messageReceived ev)
      | _ =>
        match changes.statuses with
        | some (su :: _) =>
          let ev := Event.statusUpdated su metadata
          (⟨"status_updated", some su.id, some su.status⟩,
            (if storageConfigured then [Action.updateStatus su.id su.status]
              else []) ++ emit behav R EvType.statusUpdated ev)
        | _ => (⟨"no_actionable_data", none, none⟩, [])

/-! ## Trace counting helpers -/

/-- Whether an action is a saveMessage call. -/
def Action.isSave : Action → Bool
  | Action.saveMessage _ => true
  | _ => false

/-- Whether an action is an updateStatus call. -/
def Action.isUpdate : Action → Bool
  | Action.updateStatus _ _ => true
  | _ => false

/-- Number of saveMessage calls in a trace. -/
def countSaves (tr : List Action) : Nat := tr.countP Action.isSave

/-- Number of updateStatus calls in a trace. -/
def countUpdates (tr : List Action) : Nat := tr.countP Action.isUpdate

/-- Number of emissions of the given event type in a trace. -/
def countEmits (t : EvType) (tr : List Action) : Nat :=
  tr.countP fun a =>
    match a with
    | Action.emitted t' _ => t' = t
    | _ => false

/-- Number of invocations of a given handler at a given event. -/
def countInvokes (h : Nat) (ev : Event) (tr : List Action) : Nat :=
  tr.countP fun a =>
    match a with
    | Action.invoked h' ev' => h' = h && decide (ev' = ev)
    | _ => false

/-! ## Concrete fixtures (mirroring the repository's webhook.test.ts) -/

/-- A subscriber environment in which every handler returns normally. -/
def calmBehavior : Behavior := fun _ _ => none

/-- The empty registry: no subscriber for any event type. -/
def noHandlers : Registry := fun _ => []

/-- A registry with handlers 1 and 2 subscribed to message:received. -/
def twoHandlers : Registry :=
  fun t => if t = EvType.messageReceived then [1, 2] else []

/-- A behavior where handler 1 throws and everything else returns. -/
def failingBehavior : Behavior :=
  fun h _ => if h = 1 then some "Handler error" else none

/-- The end-to-end fixture message of the spec and the test file. -/
def testMessage : IncomingMessage :=
  { «from» := "+15551234567", id := "wamid.ABC123", timestamp := "1700000000",
    type := MsgType.text, text := some ⟨"Test message"⟩ }

/-- The change value carrying only the fixture message. -/
def testChangeValue : ChangeValue :=
  { metadata := ⟨"+1234567890", "PHONE_ID_123"⟩, messages := some [testMessage] }

/-- The end-to-end fixture payload. -/
def testPayload : WhatsAppWebhookPayload :=
  ⟨[⟨"WABA_ID_123", [⟨testChangeValue⟩]⟩]⟩

/-- The record handle persists for the fixture payload. -/
def testRecord : WhatsAppMessageRecord := mkMessageRecord testChangeValue testMessage

/-- The event metadata for the fixture payload. -/
def testMetadata : WebhookMetadata := ⟨"PHONE_ID_123", "+1234567890", "WABA_ID_123"⟩

/-- A fixture status update. -/
def testStatus : IncomingStatusUpdate :=
  ⟨"wamid.STATUS123", "read", "1700000000", "+0987654321"⟩

/-- The change value carrying only the fixture status update. -/
def statusChangeValue : ChangeValue :=
  { metadata := ⟨"+1234567890", "PHONE_ID_123"⟩, statuses := some [testStatus] }

/-- A payload carrying only the fixture status update. -/
def statusPayload : WhatsAppWebhookPayload :=
  ⟨[⟨"WABA_ID_123", [⟨statusChangeValue⟩]⟩]⟩

/-- A change value carrying both a message and a status update. -/
def bothChangeValue : ChangeValue :=
  { metadata := ⟨"+1234567890", "PHONE_ID_123"⟩,
    messages := some [testMessage], statuses := some [testStatus] }

/-- A payload whose first change value carries both a message and a status
update. -/
def bothPayload : WhatsAppWebhookPayload :=
  ⟨[⟨"WABA_ID_123", [⟨bothChangeValue⟩]⟩]⟩

/-- A text message whose text object carries the empty body. -/
def emptyTextMessage : IncomingMessage :=
  { «from» := "+15551234567", id := "wamid.EMPTY1", timestamp := "1700000000",
    type := MsgType.text, text := some ⟨""⟩ }

/-- The change value carrying only the empty-body text message. -/
def emptyTextChangeValue : ChangeValue :=
  { metadata := ⟨"+1234567890", "PHONE_ID_123"⟩,
    messages := some [emptyTextMessage] }

/-- A payload carrying only the empty-body text message. -/
def emptyTextPayload : WhatsAppWebhookPayload :=
  ⟨[⟨"WABA_ID_123", [⟨emptyTextChangeValue⟩]⟩]⟩

/-- A handshake query with the right mode and token but no challenge. -/
def noChallengeQuery : String → Option JSQueryValue :=
  fun k =>
    if k = "hub.mode" then some (JSQueryValue.str "subscribe")
    else if k = "hub.verify_token" then some (JSQueryValue.str "my-secret-token")
    else none

/-- A handshake query with a wrong token. -/
def wrongTokenQuery : String → Option JSQueryValue :=
  fun k =>
    if k = "hub.mode" then some (JSQueryValue.str "subscribe")
    else if k = "hub.verify_token" then some (JSQueryValue.str "wrong-token")
    else if k = "hub.challenge" then some (JSQueryValue.str "CHALLENGE_123")
    else none

end Webhook

namespace Webhook

/-! ## Helper lemmas about emit traces -/

/-- A synthesized error event is never the event it carries as context. -/
theorem error_context_ne (e : String) (ev : Event) :
    Event.error e (some ev) ≠ ev := by
  intro h
  have h2 := congrArg Event.depth h
  simp only [Event.depth] at h2
  omega

/-- runHandler performs no storage writes. -/
theorem countSaves_runHandler (behav : Behavior) (R : Registry) (t : EvType)
    (ev : Event) (h : Nat) : countSaves (runHandler behav R t ev h) = 0 := by
  unfold runHandler countSaves
  cases behav h ev with
  | none => simp [Action.isSave]
  | some e =>
    by_cases ht : t = EvType.error <;>
      simp [ht, Action.isSave, List.countP_cons, List.countP_map, Function.comp]

/-- runHandler performs no status updates. -/
theorem countUpdates_runHandler (behav : Behavior) (R : Registry) (t : EvType)
    (ev : Event) (h : Nat) : countUpdates (runHandler behav R t ev h) = 0 := by
  unfold runHandler countUpdates
  cases behav h ev with
  | none => simp [Action.isUpdate]
  | some e =>
    by_cases ht : t = EvType.error <;>
      simp [ht, Action.isUpdate, List.countP_cons, List.countP_map, Function.comp]

/-- The only emissions runHandler can add carry the error tag. -/
theorem countEmits_runHandler_ne_error (behav : Behavior) (R : Registry)
    (t t' : EvType) (ev : Event) (h : Nat) (ht' : t' ≠ EvType.error) :
    countEmits t' (runHandler behav R t ev h) = 0 := by
  unfold runHandler countEmits
  cases behav h ev with
  | none => simp
  | some e =>
    by_cases ht : t = EvType.error
    · simp [ht]
    · simp [ht, List.countP_cons, List.countP_map, Function.comp]
      exact Ne.symm ht'

/-- runHandler synthesizes one error emission exactly when its handler
throws off the error tag. -/
theorem countEmits_error_runHandler (behav : Behavior) (R : Registry)
    (t : EvType) (ev : Event) (h : Nat) :
    countEmits EvType.error (runHandler behav R t ev h) =
      if t ≠ EvType.error ∧ (behav h ev).isSome then 1 else 0 := by
  unfold runHandler countEmits
  cases hb : behav h ev with
  | none => simp
  | some e =>
    by_cases ht : t = EvType.error
    · simp [ht]
    · simp [ht, List.countP_cons, List.countP_map, Function.comp]

/-- Each loop iteration invokes its own handler exactly once at the
dispatched event; the error-path invocations carry a different event. -/
theorem countInvokes_runHandler (behav : Behavior) (R : Registry) (t : EvType)
    (ev : Event) (h h' : Nat) :
    countInvokes h' ev (runHandler behav R t ev h) = if h = h' then 1 else 0 := by
  unfold runHandler countInvokes
  cases hb : behav h ev with
  | none => by_cases hh : h = h' <;> simp [hh]
  | some e =>
    by_cases ht : t = EvType.error <;> by_cases hh : h = h' <;>
      simp [ht, hh, List.countP_cons, List.countP_map, Function.comp,
        decide_eq_false (error_context_ne e ev)]

/-- countP distributes over a flattened map as a sum of per-element counts. -/
theorem countP_flatten_map {α β : Type} (p : β → Bool) (f : α → List β)
    (l : List α) :
    ((l.map f).flatten).countP p = (l.map fun a => (f a).countP p).sum := by
  induction l with
  | nil => simp
  | cons a l ih => simp [List.countP_append, ih]

/-- A sum of membership indicators is a count. -/
theorem sum_indicator_count (h : Nat) (l : List Nat) :
    (l.map fun a => if a = h then 1 else 0).sum = l.count h := by
  induction l with
  | nil => simp
  | cons a l ih =>
    by_cases ha : a = h
    · simp [ha, ih, List.count_cons]
      omega
    · simp [ha, ih, List.count_cons]

/-- emit performs no storage writes. -/
theorem countSaves_emit (behav : Behavior) (R : Registry) (t : EvType)
    (ev : Event) : countSaves (emit behav R t ev) = 0 := by
  unfold emit countSaves
  rw [List.countP_cons, countP_flatten_map]
  have h1 : ((R t).map fun a => (runHandler behav R t ev a).countP Action.isSave) =
      (R t).map fun _ => (0 : Nat) :=
    List.map_congr_left fun a _ => countSaves_runHandler behav R t ev a
  rw [h1]
  simp [Action.isSave]

/-- emit performs no status updates. -/
theorem countUpdates_emit (behav : Behavior) (R : Registry) (t : EvType)
    (ev : Event) : countUpdates (emit behav R t ev) = 0 := by
  unfold emit countUpdates
  rw [List.countP_cons, countP_flatten_map]
  have h1 : ((R t).map fun a => (runHandler behav R t ev a).countP Action.isUpdate) =
      (R t).map fun _ => (0 : Nat) :=
    List.map_congr_left fun a _ => countUpdates_runHandler behav R t ev a
  rw [h1]
  simp [Action.isUpdate]

/-- For a non-error tag, emit emits exactly its own dispatch: the body can
only add error-tagged emissions. -/
theorem countEmits_emit_of_ne_error (behav : Behavior) (R : Registry)
    (t t' : EvType) (ev : Event) (ht' : t' ≠ EvType.error) :
    countEmits t' (emit behav R t ev) = if t = t' then 1 else 0 := by
  unfold emit countEmits
  rw [List.countP_cons, countP_flatten_map]
  have h1 : ((R t).map fun a =>
      (runHandler behav R t ev a).countP
        (fun x => match x with
          | Action.emitted t'' _ => decide (t'' = t')
          | _ => false)) = (R t).map fun _ => (0 : Nat) :=
    List.map_congr_left fun a _ => countEmits_runHandler_ne_error behav R t t' ev a ht'
  rw [h1]
  by_cases h : t = t' <;> simp [h]

/-- Every handler registered for the dispatched type is invoked at the
dispatched event as many times as it occurs in the Set. -/
theorem countInvokes_emit (behav : Behavior) (R : Registry) (t : EvType)
    (ev : Event) (h : Nat) :
    countInvokes h ev (emit behav R t ev) = (R t).count h := by
  unfold emit countInvokes
  rw [List.countP_cons, countP_flatten_map]
  have h1 : ((R t).map fun a =>
      (runHandler behav R t ev a).countP
        (fun x => match x with
          | Action.invoked h' ev' => h' = h && decide (ev' = ev)
          | _ => false)) = (R t).map fun a => if a = h then 1 else 0 :=
    List.map_congr_left fun a _ => countInvokes_runHandler behav R t ev a h
  rw [h1, sum_indicator_count]
  simp

/-- Number of error emissions of emit off the error tag: one per throwing
handler. -/
theorem countEmits_error_emit (behav : Behavior) (R : Registry) (t : EvType)
    (ev : Event) (ht : t ≠ EvType.error) :
    countEmits EvType.error (emit behav R t ev) =
      ((R t).map fun a => if (behav a ev).isSome then 1 else 0).sum := by
  unfold emit countEmits
  rw [List.countP_cons, countP_flatten_map]
  have h1 : ((R t).map fun a =>
      (runHandler behav R t ev a).countP
        (fun x => match x with
          | Action.emitted t'' _ => decide (t'' = EvType.error)
          | _ => false)) =
      (R t).map fun a => if (behav a ev).isSome then 1 else 0 := by
    refine List.map_congr_left fun a _ => ?_
    have h2 := countEmits_error_runHandler behav R t ev a
    unfold countEmits at h2
    simpa [ht] using h2
  rw [h1]
  simp [decide_eq_false ht]

/-- When exactly one registered handler throws, the indicator sum is one. -/
theorem sum_single_failure (behav : Behavior) (ev : Event) (l : List Nat)
    (h : Nat) (hmem : h ∈ l) (hnd : l.Nodup)
    (hfail : (behav h ev).isSome)
    (hothers : ∀ h', h' ∈ l → h' ≠ h → behav h' ev = none) :
    (l.map fun a => if (behav a ev).isSome then 1 else 0).sum = 1 := by
  have hagree : ∀ a ∈ l, (if (behav a ev).isSome then 1 else 0) =
      (if a = h then 1 else 0) := by
    intro a ha
    by_cases hah : a = h
    · simp [hah, hfail]
    · simp [hothers a ha hah, hah]
  rw [List.map_congr_left hagree, sum_indicator_count]
  exact List.count_eq_one_of_mem hnd hmem

/-- The synthesized error event of a throwing handler is in the emit trace,
carrying the failure and the triggering event as context. -/
theorem error_event_mem_emit (behav : Behavior) (R : Registry) (t : EvType)
    (ev : Event) (h : Nat) (e : String) (ht : t ≠ EvType.error)
    (hmem : h ∈ R t) (hb : behav h ev = some e) :
    Action.emitted EvType.error (Event.error e (some ev)) ∈ emit behav R t ev := by
  unfold emit
  refine List.mem_cons_of_mem _ (List.mem_flatten.mpr ⟨runHandler behav R t ev h, ?_, ?_⟩)
  · exact List.mem_map.mpr ⟨h, hmem, rfl⟩
  · simp [runHandler, hb, ht]


/-- The handler-loop part of an emit trace performs no storage writes. -/
theorem countSaves_emitBody (behav : Behavior) (R : Registry) (t : EvType)
    (ev : Event) :
    countSaves (((R t).map (runHandler behav R t ev)).flatten) = 0 := by
  unfold countSaves
  rw [countP_flatten_map]
  have h1 : ((R t).map fun a => (runHandler behav R t ev a).countP Action.isSave) =
      (R t).map fun _ => (0 : Nat) :=
    List.map_congr_left fun a _ => countSaves_runHandler behav R t ev a
  rw [h1]
  simp

/-- The handler-loop part of an emit trace performs no status updates. -/
theorem countUpdates_emitBody (behav : Behavior) (R : Registry) (t : EvType)
    (ev : Event) :
    countUpdates (((R t).map (runHandler behav R t ev)).flatten) = 0 := by
  unfold countUpdates
  rw [countP_flatten_map]
  have h1 : ((R t).map fun a => (runHandler behav R t ev a).countP Action.isUpdate) =
      (R t).map fun _ => (0 : Nat) :=
    List.map_congr_left fun a _ => countUpdates_runHandler behav R t ev a
  rw [h1]
  simp

/-- The handler-loop part of an emit trace emits nothing off the error tag. -/
theorem countEmits_emitBody_ne_error (behav : Behavior) (R : Registry)
    (t t' : EvType) (ev : Event) (ht' : t' ≠ EvType.error) :
    countEmits t' (((R t).map (runHandler behav R t ev)).flatten) = 0 := by
  unfold countEmits
  rw [countP_flatten_map]
  have h1 : ((R t).map fun a =>
      (runHandler behav R t ev a).countP
        (fun x => match x with
          | Action.emitted t'' _ => decide (t'' = t')
          | _ => false)) = (R t).map fun _ => (0 : Nat) :=
    List.map_congr_left fun a _ => countEmits_runHandler_ne_error behav R t t' ev a ht'
  rw [h1]
  simp

/-- Error emissions in the handler-loop part of an emit trace: one per
handler that throws, none at all on the error tag. -/
theorem countEmits_error_emitBody (behav : Behavior) (R : Registry) (t : EvType)
    (ev : Event) :
    countEmits EvType.error (((R t).map (runHandler behav R t ev)).flatten) =
      ((R t).map fun a =>
        if t ≠ EvType.error ∧ (behav a ev).isSome then 1 else 0).sum := by
  unfold countEmits
  rw [countP_flatten_map]
  congr 1
  exact List.map_congr_left fun a _ => countEmits_error_runHandler behav R t ev a

/-! ## Claim theorems -/

/-- C2, counterexample: a query carrying the subscribe mode and the correct
token but no challenge parameter.  The claim says the absence of any of the
three parameters must fail the handshake; the code instead returns normally,
passing the absent challenge through (the bare cast does not check it). -/
theorem verify_missing_challenge_returns :
    verify "my-secret-token" noChallengeQuery = Except.ok none ∧
      noChallengeQuery "hub.mode" = some (JSQueryValue.str "subscribe") ∧
      noChallengeQuery "hub.verify_token" = some (JSQueryValue.str "my-secret-token") ∧
      noChallengeQuery "hub.challenge" = none := by
  refine ⟨rfl, rfl, rfl, rfl⟩

/-- C2 (amended): verify returns the challenge value (which may be absent:
it is passed through unchecked) precisely when hub.mode is the literal
subscribe and hub.verify_token equals the configured token by exact string
match; in every other case - wrong or absent mode, wrong or absent token,
or an array-valued parameter - it fails with the HandshakeFailed condition.
The absence of the challenge alone does not make it fail. -/
theorem verify_ok_iff (verifyToken : String)
    (query : String → Option JSQueryValue) :
    (verify verifyToken query = Except.ok (query "hub.challenge") ↔
      queryValEqStr (query "hub.mode") "subscribe" = true ∧
        queryValEqStr (query "hub.verify_token") verifyToken = true) ∧
    (¬ (queryValEqStr (query "hub.mode") "subscribe" = true ∧
        queryValEqStr (query "hub.verify_token") verifyToken = true) →
      verify verifyToken query = Except.error HandshakeError.handshakeFailed) := by
  unfold verify
  by_cases h1 : queryValEqStr (query "hub.mode") "subscribe" = true <;>
    by_cases h2 : queryValEqStr (query "hub.verify_token") verifyToken = true <;>
      simp [h1, h2]

/-- Witness for C2's amended theorem: a wrong presented token fails. -/
theorem verify_ok_iff_witness :
    verify "my-secret-token" wrongTokenQuery =
      Except.error HandshakeError.handshakeFailed :=
  (verify_ok_iff "my-secret-token" wrongTokenQuery).2 (by decide)

/-- C9: a payload with an empty (or absent) entry array, or whose first
entry has an empty (or absent) changes array, makes handle return the
ignored result with an empty trace: no storage call, no emission, and no
handler invocation whatsoever. -/
theorem handle_no_changes_ignored (storageConfigured : Bool) (behav : Behavior)
    (R : Registry) (p : WhatsAppWebhookPayload)
    (hp : p.entry = [] ∨ ∃ e rest, p.entry = e :: rest ∧ e.changes = []) :
    handle storageConfigured behav R p = (⟨"ignored", none, none⟩, []) := by
  rcases hp with hp | ⟨e, rest, hp, hc⟩
  · unfold handle
    rw [hp]
    rfl
  · unfold handle
    rw [hp]
    simp [hc]

/-- Witness for C9 at the empty payload of the test file. -/
theorem handle_no_changes_ignored_witness :
    handle true calmBehavior noHandlers ⟨[]⟩ = (⟨"ignored", none, none⟩, []) :=
  handle_no_changes_ignored true calmBehavior noHandlers ⟨[]⟩ (Or.inl rfl)

set_option maxRecDepth 100000 in
/-- C5: the code evaluated at a digest of the wrong length.  The header
carries the correct digest of the body under the secret followed by one
dangling hex character (65 hex characters: not a decodable hex string, and
not the 32-byte digest length).  The claim - and the catch comment in the
code itself - require the result false, but Node Buffer hex decoding
truncates the dangling character, the decoded buffers coincide, and the
code returns true.  The second conjunct does the same with two trailing
non-hex characters, accepting a non-hex digest.  The digest dc4698...0723
is HMAC-SHA-256 of the body under the secret, recomputed here by the
embedded HMAC (third conjunct). -/
theorem verifySignature_wrong_length_digest_accepted :
    verifySignature (some "secret") "body"
        "sha256=dc46983557fea127b43af721467eb9b3fde2338fe3e14f51952aa8478c13d355f" =
      Except.ok true ∧
    verifySignature (some "secret") "body"
        "sha256=dc46983557fea127b43af721467eb9b3fde2338fe3e14f51952aa8478c13d355zz" =
      Except.ok true ∧
    hmacSha256Hex "secret" "body" =
      "dc46983557fea127b43af721467eb9b3fde2338fe3e14f51952aa8478c13d355" := by
  refine ⟨rfl, rfl, rfl⟩

/-- C3: for every payload whose first entry's first change value carries at
least one incoming message, with a storage collaborator configured, the
handle trace starts with exactly one saveMessage call - the persisted
record being built from the first message - completed before the single
message:received emission, with no further save, update or
message:received emission afterwards, and the result is message_received
with the message's id; moreover at the end-to-end fixture payload the
persisted record carries the claimed customerNumber, content, direction
and status. -/
theorem handle_message_saves_once_then_emits :
    (∀ (behav : Behavior) (R : Registry) (p : WhatsAppWebhookPayload)
        (e : Entry) (c : Change) (m : IncomingMessage) (ms : List IncomingMessage),
      p.entry.head? = some e → e.changes.head? = some c →
      c.value.messages = some (m :: ms) →
      ∃ rest,
        handle true behav R p =
          (⟨"message_received", some m.id, none⟩,
            Action.saveMessage (mkMessageRecord c.value m) ::
              Action.emitted EvType.messageReceived
                (Event.messageReceived m
                  ⟨c.value.metadata.phone_number_id,
                    c.value.metadata.display_phone_number, e.id⟩) :: rest) ∧
          countSaves rest = 0 ∧ countUpdates rest = 0 ∧
          countEmits EvType.messageReceived rest = 0) ∧
    handle true calmBehavior noHandlers testPayload =
      (⟨"message_received", some "wamid.ABC123", none⟩,
        [Action.saveMessage testRecord,
          Action.emitted EvType.messageReceived
            (Event.messageReceived testMessage testMetadata)]) ∧
    testRecord.customerNumber = "+15551234567" ∧
    testRecord.content = "Test message" ∧
    testRecord.direction = "inbound" ∧
    testRecord.status = "delivered" := by
  refine ⟨?_, rfl, rfl, rfl, rfl, rfl⟩
  intro behav R p e c m ms he hc hm
  refine ⟨((R EvType.messageReceived).map
      (runHandler behav R EvType.messageReceived
        (Event.messageReceived m
          ⟨c.value.metadata.phone_number_id,
            c.value.metadata.display_phone_number, e.id⟩))).flatten,
    ?_, countSaves_emitBody _ _ _ _, countUpdates_emitBody _ _ _ _,
    countEmits_emitBody_ne_error _ _ _ _ _ (by simp)⟩
  unfold handle
  simp only [he, hc, hm]
  simp [emit]

/-- Witness for C3 at the fixture payload. -/
theorem handle_message_saves_once_then_emits_witness :
    ∃ rest,
      handle true calmBehavior noHandlers testPayload =
        (⟨"message_received", some testMessage.id, none⟩,
          Action.saveMessage (mkMessageRecord testChangeValue testMessage) ::
            Action.emitted EvType.messageReceived
              (Event.messageReceived testMessage
                ⟨testChangeValue.metadata.phone_number_id,
                  testChangeValue.metadata.display_phone_number,
                  "WABA_ID_123"⟩) :: rest) ∧
      countSaves rest = 0 ∧ countUpdates rest = 0 ∧
      countEmits EvType.messageReceived rest = 0 :=
  handle_message_saves_once_then_emits.1 calmBehavior noHandlers testPayload
    ⟨"WABA_ID_123", [⟨testChangeValue⟩]⟩ ⟨testChangeValue⟩ testMessage [] rfl rfl rfl

/-- C6, counterexample: a payload whose first change value carries at least
one status update - and also a message - is in the claim's domain, yet
handle takes the message branch: updateStatus is never called, no
status:updated event is emitted, and the result is message_received, not
status_updated. -/
theorem handle_both_kinds_skips_status :
    bothChangeValue.statuses = some [testStatus] ∧
    bothPayload.entry.head? = some ⟨"WABA_ID_123", [⟨bothChangeValue⟩]⟩ ∧
    countUpdates (handle true calmBehavior noHandlers bothPayload).2 = 0 ∧
    countEmits EvType.statusUpdated
      (handle true calmBehavior noHandlers bothPayload).2 = 0 ∧
    (handle true calmBehavior noHandlers bothPayload).1 =
      ⟨"message_received", some "wamid.ABC123", none⟩ := by
  refine ⟨rfl, rfl, rfl, rfl, rfl⟩

/-- C6 (amended): for every payload whose first entry's first change value
carries at least one status update and no incoming message (the messages
array absent or empty - when a message is also present the message branch
wins, see the counterexample), with storage configured, handle performs
exactly one updateStatus call with the first update's id and status,
completed before the single status:updated emission carrying that same
update, and returns the status_updated result with that id and status. -/
theorem handle_status_updates_once :
    ∀ (behav : Behavior) (R : Registry) (p : WhatsAppWebhookPayload)
      (e : Entry) (c : Change) (su : IncomingStatusUpdate)
      (ss : List IncomingStatusUpdate),
      p.entry.head? = some e → e.changes.head? = some c →
      (c.value.messages = none ∨ c.value.messages = some []) →
      c.value.statuses = some (su :: ss) →
      ∃ rest,
        handle true behav R p =
          (⟨"status_updated", some su.id, some su.status⟩,
            Action.updateStatus su.id su.status ::
              Action.emitted EvType.statusUpdated
                (Event.statusUpdated su
                  ⟨c.value.metadata.phone_number_id,
                    c.value.metadata.display_phone_number, e.id⟩) :: rest) ∧
        countUpdates rest = 0 ∧ countSaves rest = 0 ∧
        countEmits EvType.statusUpdated rest = 0 := by
  intro behav R p e c su ss he hc hm hs
  refine ⟨((R EvType.statusUpdated).map
      (runHandler behav R EvType.statusUpdated
        (Event.statusUpdated su
          ⟨c.value.metadata.phone_number_id,
            c.value.metadata.display_phone_number, e.id⟩))).flatten,
    ?_, countUpdates_emitBody _ _ _ _, countSaves_emitBody _ _ _ _,
    countEmits_emitBody_ne_error _ _ _ _ _ (by simp)⟩
  unfold handle
  rcases hm with hm | hm <;> simp only [he, hc, hm, hs] <;> simp [emit]

/-- Witness for C6's amended theorem at the status fixture payload. -/
theorem handle_status_updates_once_witness :
    ∃ rest,
      handle true calmBehavior noHandlers statusPayload =
        (⟨"status_updated", some testStatus.id, some testStatus.status⟩,
          Action.updateStatus testStatus.id testStatus.status ::
            Action.emitted EvType.statusUpdated
              (Event.statusUpdated testStatus
                ⟨statusChangeValue.metadata.phone_number_id,
                  statusChangeValue.metadata.display_phone_number,
                  "WABA_ID_123"⟩) :: rest) ∧
      countUpdates rest = 0 ∧ countSaves rest = 0 ∧
      countEmits EvType.statusUpdated rest = 0 :=
  handle_status_updates_once calmBehavior noHandlers statusPayload
    ⟨"WABA_ID_123", [⟨statusChangeValue⟩]⟩ ⟨statusChangeValue⟩ testStatus []
    rfl rfl (Or.inl rfl) rfl

/-- countEmits distributes over appended traces. -/
theorem countEmits_append (t' : EvType) (l1 l2 : List Action) :
    countEmits t' (l1 ++ l2) = countEmits t' l1 + countEmits t' l2 :=
  List.countP_append _ _ _

/-- countSaves distributes over appended traces. -/
theorem countSaves_append (l1 l2 : List Action) :
    countSaves (l1 ++ l2) = countSaves l1 + countSaves l2 :=
  List.countP_append _ _ _

/-- countUpdates distributes over appended traces. -/
theorem countUpdates_append (l1 l2 : List Action) :
    countUpdates (l1 ++ l2) = countUpdates l1 + countUpdates l2 :=
  List.countP_append _ _ _

/-- The optional storage write emits nothing. -/
theorem countEmits_ifSave (t' : EvType) (s : Bool) (r : WhatsAppMessageRecord) :
    countEmits t' (if s = true then [Action.saveMessage r] else []) = 0 := by
  cases s <;> simp [countEmits]

/-- The optional status write emits nothing. -/
theorem countEmits_ifUpd (t' : EvType) (s : Bool) (w st : String) :
    countEmits t' (if s = true then [Action.updateStatus w st] else []) = 0 := by
  cases s <;> simp [countEmits]

/-- Saves contributed by the optional storage write. -/
theorem countSaves_ifSave (s : Bool) (r : WhatsAppMessageRecord) :
    countSaves (if s = true then [Action.saveMessage r] else []) =
      if s = true then 1 else 0 := by
  cases s <;> simp [countSaves, Action.isSave]

/-- The optional status write performs no save. -/
theorem countSaves_ifUpd (s : Bool) (w st : String) :
    countSaves (if s = true then [Action.updateStatus w st] else []) = 0 := by
  cases s <;> simp [countSaves, Action.isSave]

/-- The optional storage write performs no status update. -/
theorem countUpdates_ifSave (s : Bool) (r : WhatsAppMessageRecord) :
    countUpdates (if s = true then [Action.saveMessage r] else []) = 0 := by
  cases s <;> simp [countUpdates, Action.isUpdate]

/-- Status updates contributed by the optional status write. -/
theorem countUpdates_ifUpd (s : Bool) (w st : String) :
    countUpdates (if s = true then [Action.updateStatus w st] else []) =
      if s = true then 1 else 0 := by
  cases s <;> simp [countUpdates, Action.isUpdate]

/-- The exact shape the handle result and trace take on the message branch:
the optional storage write, then the message:received emission with its
handler loop. -/
theorem handle_message_trace (s : Bool) (behav : Behavior) (R : Registry)
    (p : WhatsAppWebhookPayload) (e : Entry) (c : Change)
    (m : IncomingMessage) (ms : List IncomingMessage)
    (he : p.entry.head? = some e) (hc : e.changes.head? = some c)
    (hm : c.value.messages = some (m :: ms)) :
    handle s behav R p =
      (⟨"message_received", some m.id, none⟩,
        (if s = true then [Action.saveMessage (mkMessageRecord c.value m)]
          else []) ++
          emit behav R EvType.messageReceived
            (Event.messageReceived m
              ⟨c.value.metadata.phone_number_id,
                c.value.metadata.display_phone_number, e.id⟩)) := by
  unfold handle
  simp only [he, hc, hm]

/-- The exact shape the handle result and trace take on the status branch:
the optional status write, then the status:updated emission with its
handler loop. -/
theorem handle_status_trace (s : Bool) (behav : Behavior) (R : Registry)
    (p : WhatsAppWebhookPayload) (e : Entry) (c : Change)
    (su : IncomingStatusUpdate) (ss : List IncomingStatusUpdate)
    (he : p.entry.head? = some e) (hc : e.changes.head? = some c)
    (hm : c.value.messages = none ∨ c.value.messages = some [])
    (hs : c.value.statuses = some (su :: ss)) :
    handle s behav R p =
      (⟨"status_updated", some su.id, some su.status⟩,
        (if s = true then [Action.updateStatus su.id su.status] else []) ++
          emit behav R EvType.statusUpdated
            (Event.statusUpdated su
              ⟨c.value.metadata.phone_number_id,
                c.value.metadata.display_phone_number, e.id⟩)) := by
  unfold handle
  rcases hm with hm | hm <;> simp only [he, hc, hm, hs]

/-- countSaves over a cons. -/
theorem countSaves_cons (a : Action) (l : List Action) :
    countSaves (a :: l) = countSaves l + (if Action.isSave a then 1 else 0) :=
  List.countP_cons _ _ _

/-- countUpdates over a cons. -/
theorem countUpdates_cons (a : Action) (l : List Action) :
    countUpdates (a :: l) = countUpdates l + (if Action.isUpdate a then 1 else 0) :=
  List.countP_cons _ _ _

/-- countEmits over a cons. -/
theorem countEmits_cons (t' : EvType) (a : Action) (l : List Action) :
    countEmits t' (a :: l) = countEmits t' l +
      (if (match a with
        | Action.emitted t'' _ => decide (t'' = t')
        | _ => false) then 1 else 0) :=
  List.countP_cons _ _ _

/-- C7: a single handle invocation emits at most one event shape - at most
one message:received emission, at most one status:updated emission, and
never both in the same dispatch cycle; and when the first change value
carries both messages and statuses only the message kind is processed:
with storage configured, saveMessage is called once, updateStatus never,
and no status:updated event is emitted. -/
theorem handle_emits_at_most_one_shape :
    (∀ (s : Bool) (behav : Behavior) (R : Registry) (p : WhatsAppWebhookPayload),
      countEmits EvType.messageReceived (handle s behav R p).2 ≤ 1 ∧
      countEmits EvType.statusUpdated (handle s behav R p).2 ≤ 1 ∧
      (countEmits EvType.messageReceived (handle s behav R p).2 = 0 ∨
        countEmits EvType.statusUpdated (handle s behav R p).2 = 0)) ∧
    (∀ (behav : Behavior) (R : Registry) (p : WhatsAppWebhookPayload)
        (e : Entry) (c : Change) (m : IncomingMessage) (ms : List IncomingMessage)
        (su : IncomingStatusUpdate) (ss : List IncomingStatusUpdate),
      p.entry.head? = some e → e.changes.head? = some c →
      c.value.messages = some (m :: ms) → c.value.statuses = some (su :: ss) →
      countSaves (handle true behav R p).2 = 1 ∧
      countUpdates (handle true behav R p).2 = 0 ∧
      countEmits EvType.statusUpdated (handle true behav R p).2 = 0) := by
  constructor
  · intro s behav R p
    rcases hpe : p.entry.head? with _ | e
    · have h0 : handle s behav R p = (⟨"ignored", none, none⟩, []) := by
        unfold handle
        simp only [hpe]
      simp [h0, countEmits]
    · rcases hce : e.changes.head? with _ | c
      · have h0 : handle s behav R p = (⟨"ignored", none, none⟩, []) := by
          unfold handle
          simp only [hpe, hce]
        simp [h0, countEmits]
      · have statusPath :
            (c.value.messages = none ∨ c.value.messages = some []) →
            countEmits EvType.messageReceived (handle s behav R p).2 ≤ 1 ∧
            countEmits EvType.statusUpdated (handle s behav R p).2 ≤ 1 ∧
            (countEmits EvType.messageReceived (handle s behav R p).2 = 0 ∨
              countEmits EvType.statusUpdated (handle s behav R p).2 = 0) := by
          intro hm'
          rcases hs : c.value.statuses with _ | sl
          · have h0 : handle s behav R p = (⟨"no_actionable_data", none, none⟩, []) := by
              unfold handle
              rcases hm' with hm' | hm' <;> simp only [hpe, hce, hm', hs]
            simp [h0, countEmits]
          · rcases sl with _ | ⟨su, ss⟩
            · have h0 : handle s behav R p =
                  (⟨"no_actionable_data", none, none⟩, []) := by
                unfold handle
                rcases hm' with hm' | hm' <;> simp only [hpe, hce, hm', hs]
              simp [h0, countEmits]
            · have h0 := handle_status_trace s behav R p e c su ss hpe hce hm' hs
              have h2 : (handle s behav R p).2 =
                  (if s = true then [Action.updateStatus su.id su.status]
                    else []) ++
                    emit behav R EvType.statusUpdated
                      (Event.statusUpdated su
                        ⟨c.value.metadata.phone_number_id,
                          c.value.metadata.display_phone_number, e.id⟩) := by
                rw [h0]
              refine ⟨?_, ?_, Or.inl ?_⟩ <;>
                rw [h2, countEmits_append, countEmits_ifUpd,
                  countEmits_emit_of_ne_error _ _ _ _ _ (by simp)] <;>
                simp
        rcases hm : c.value.messages with _ | ml
        · exact statusPath (Or.inl hm)
        · rcases ml with _ | ⟨m, ms⟩
          · exact statusPath (Or.inr hm)
          · have h0 := handle_message_trace s behav R p e c m ms hpe hce hm
            have h2 : (handle s behav R p).2 =
                (if s = true then
                  [Action.saveMessage (mkMessageRecord c.value m)] else []) ++
                  emit behav R EvType.messageReceived
                    (Event.messageReceived m
                      ⟨c.value.metadata.phone_number_id,
                        c.value.metadata.display_phone_number, e.id⟩) := by
              rw [h0]
            refine ⟨?_, ?_, Or.inr ?_⟩ <;>
              rw [h2, countEmits_append, countEmits_ifSave,
                countEmits_emit_of_ne_error _ _ _ _ _ (by simp)] <;>
              simp
  · intro behav R p e c m ms su ss he hc hm hs
    have h0 := handle_message_trace true behav R p e c m ms he hc hm
    have h2 : (handle true behav R p).2 =
        Action.saveMessage (mkMessageRecord c.value m) ::
          emit behav R EvType.messageReceived
            (Event.messageReceived m
              ⟨c.value.metadata.phone_number_id,
                c.value.metadata.display_phone_number, e.id⟩) := by
      rw [h0]
      rfl
    refine ⟨?_, ?_, ?_⟩
    · rw [h2, countSaves_cons, countSaves_emit]
      simp [Action.isSave]
    · rw [h2, countUpdates_cons, countUpdates_emit]
      simp [Action.isUpdate]
    · rw [h2, countEmits_cons, countEmits_emit_of_ne_error _ _ _ _ _ (by simp)]
      simp

/-- Witness for C7 at the payload carrying both kinds. -/
theorem handle_emits_at_most_one_shape_witness :
    (countEmits EvType.messageReceived
        (handle true calmBehavior noHandlers bothPayload).2 = 0 ∨
      countEmits EvType.statusUpdated
        (handle true calmBehavior noHandlers bothPayload).2 = 0) ∧
    countSaves (handle true calmBehavior noHandlers bothPayload).2 = 1 ∧
    countUpdates (handle true calmBehavior noHandlers bothPayload).2 = 0 ∧
    countEmits EvType.statusUpdated
      (handle true calmBehavior noHandlers bothPayload).2 = 0 := by
  have h1 := (handle_emits_at_most_one_shape.1 true calmBehavior noHandlers
    bothPayload).2.2
  have h2 := handle_emits_at_most_one_shape.2 calmBehavior noHandlers bothPayload
    ⟨"WABA_ID_123", [⟨bothChangeValue⟩]⟩ ⟨bothChangeValue⟩ testMessage []
    testStatus [] rfl rfl rfl rfl
  exact ⟨h1, h2⟩

/-- C8, counterexample: a persisted text message whose text object has the
empty string as body.  The claim requires the content to be the text body
(the empty string here) because the type is text; the JS or-else in the
code treats the empty, falsy body like an absent one and stores the media
placeholder instead. -/
theorem handle_empty_text_body_gets_placeholder :
    emptyTextMessage.type = MsgType.text ∧
    emptyTextMessage.text = some ⟨""⟩ ∧
    (handle true calmBehavior noHandlers emptyTextPayload).2.head? =
      some (Action.saveMessage
        (mkMessageRecord emptyTextChangeValue emptyTextMessage)) ∧
    (mkMessageRecord emptyTextChangeValue emptyTextMessage).content =
      "Media: text" := by
  refine ⟨rfl, rfl, rfl, rfl⟩

/-- C8 (amended): every record handle persists for an incoming message has
direction inbound and status delivered; its content is the message's text
body when a text object with a non-empty body is present (whatever the
declared type), and the placeholder built from the type otherwise - that
is, when the text object is absent or its body is the empty string. -/
theorem handle_record_inbound_delivered_content :
    ∀ (behav : Behavior) (R : Registry) (p : WhatsAppWebhookPayload)
      (e : Entry) (c : Change) (m : IncomingMessage) (ms : List IncomingMessage),
      p.entry.head? = some e → e.changes.head? = some c →
      c.value.messages = some (m :: ms) →
      ∃ rest, (handle true behav R p).2 =
          Action.saveMessage (mkMessageRecord c.value m) :: rest ∧
        (mkMessageRecord c.value m).direction = "inbound" ∧
        (mkMessageRecord c.value m).status = "delivered" ∧
        (∀ t : TextBody, m.text = some t → t.body ≠ "" →
          (mkMessageRecord c.value m).content = t.body) ∧
        ((m.text = none ∨ m.text = some ⟨""⟩) →
          (mkMessageRecord c.value m).content = "Media: " ++ m.type.toStr) := by
  intro behav R p e c m ms he hc hm
  have h0 := handle_message_trace true behav R p e c m ms he hc hm
  refine ⟨emit behav R EvType.messageReceived
      (Event.messageReceived m
        ⟨c.value.metadata.phone_number_id,
          c.value.metadata.display_phone_number, e.id⟩), ?_, rfl, rfl, ?_, ?_⟩
  · rw [h0]
    rfl
  · intro t ht hne
    simp [mkMessageRecord, ht, hne]
  · intro h
    rcases h with h | h <;> simp [mkMessageRecord, h]

/-- Witness for C8's amended theorem at the fixture payload. -/
theorem handle_record_inbound_delivered_content_witness :
    ∃ rest, (handle true calmBehavior noHandlers testPayload).2 =
        Action.saveMessage (mkMessageRecord testChangeValue testMessage) :: rest ∧
      (mkMessageRecord testChangeValue testMessage).direction = "inbound" ∧
      (mkMessageRecord testChangeValue testMessage).status = "delivered" ∧
      (∀ t : TextBody, testMessage.text = some t → t.body ≠ "" →
        (mkMessageRecord testChangeValue testMessage).content = t.body) ∧
      ((testMessage.text = none ∨ testMessage.text = some ⟨""⟩) →
        (mkMessageRecord testChangeValue testMessage).content =
          "Media: " ++ testMessage.type.toStr) :=
  handle_record_inbound_delivered_content calmBehavior noHandlers testPayload
    ⟨"WABA_ID_123", [⟨testChangeValue⟩]⟩ ⟨testChangeValue⟩ testMessage []
    rfl rfl rfl

/-- C10: registering a handler for a type a second time is a no-op (JS Set
add): the registry is unchanged, holds the handler exactly once, and a
dispatch invokes it exactly once; a single off call - which is exactly what
either unsubscribe closure returned by on performs - removes it entirely,
after which a dispatch never invokes it at the dispatched event. -/
theorem on_twice_noop_off_removes :
    ∀ (R : Registry) (t : EvType) (h : Nat) (behav : Behavior) (ev : Event),
      (∀ t', (R t').Nodup) →
      Registry.on (Registry.on R t h) t h = Registry.on R t h ∧
      ((Registry.on R t h) t).count h = 1 ∧
      countInvokes h ev (emit behav (Registry.on R t h) t ev) = 1 ∧
      ((Registry.off (Registry.on R t h) t h) t).count h = 0 ∧
      countInvokes h ev
        (emit behav (Registry.off (Registry.on R t h) t h) t ev) = 0 := by
  intro R t h behav ev hnd
  have hcount : ((Registry.on R t h) t).count h = 1 := by
    unfold Registry.on
    rw [if_pos rfl]
    by_cases hm : h ∈ R t
    · rw [if_pos hm]
      exact List.count_eq_one_of_mem (hnd t) hm
    · rw [if_neg hm, List.count_append]
      simp [List.count_eq_zero_of_not_mem hm]
  have hoff : ((Registry.off (Registry.on R t h) t h) t).count h = 0 := by
    unfold Registry.off
    rw [if_pos rfl, List.count_erase_self, hcount]
  refine ⟨?_, hcount, ?_, hoff, ?_⟩
  · funext t'
    by_cases ht' : t' = t
    · subst ht'
      by_cases hm : h ∈ R t' <;> simp [Registry.on, hm]
    · simp [Registry.on, ht']
  · rw [countInvokes_emit]
    exact hcount
  · rw [countInvokes_emit]
    exact hoff

/-- Witness for C10 starting from the empty registry. -/
theorem on_twice_noop_off_removes_witness :
    Registry.on (Registry.on noHandlers EvType.messageReceived 7)
        EvType.messageReceived 7 =
      Registry.on noHandlers EvType.messageReceived 7 ∧
    ((Registry.on noHandlers EvType.messageReceived 7)
      EvType.messageReceived).count 7 = 1 ∧
    countInvokes 7 (Event.messageReceived testMessage testMetadata)
      (emit calmBehavior (Registry.on noHandlers EvType.messageReceived 7)
        EvType.messageReceived
        (Event.messageReceived testMessage testMetadata)) = 1 ∧
    ((Registry.off (Registry.on noHandlers EvType.messageReceived 7)
      EvType.messageReceived 7) EvType.messageReceived).count 7 = 0 ∧
    countInvokes 7 (Event.messageReceived testMessage testMetadata)
      (emit calmBehavior
        (Registry.off (Registry.on noHandlers EvType.messageReceived 7)
          EvType.messageReceived 7)
        EvType.messageReceived
        (Event.messageReceived testMessage testMetadata)) = 0 :=
  on_twice_noop_off_removes noHandlers EvType.messageReceived 7 calmBehavior
    (Event.messageReceived testMessage testMetadata)
    (fun _ => List.nodup_nil)

/-- C4: when one handler among those registered for a non-error event
throws, every registered handler still runs, exactly once, at the
dispatched event; the failure never escapes emit (in this embedding emit
is a total function whose trace below is its entire effect, translating
the code's try/catch around every invocation); exactly one error event is
synthesized in the handler loop, and it carries the failure and the
triggering event as context.  When the dispatched event is itself of the
error type, the loop synthesizes nothing, which is the recursion cut. -/
theorem emit_isolates_failing_handler :
    ∀ (behav : Behavior) (R : Registry) (t : EvType) (ev : Event)
      (h : Nat) (e : String),
      (R t).Nodup → h ∈ R t → behav h ev = some e →
      (∀ h', h' ∈ R t → h' ≠ h → behav h' ev = none) →
      emit behav R t ev =
        Action.emitted t ev :: ((R t).map (runHandler behav R t ev)).flatten ∧
      (∀ h', h' ∈ R t → countInvokes h' ev (emit behav R t ev) = 1) ∧
      countEmits EvType.error (((R t).map (runHandler behav R t ev)).flatten) =
        (if t = EvType.error then 0 else 1) ∧
      (t ≠ EvType.error →
        Action.emitted EvType.error (Event.error e (some ev)) ∈
          emit behav R t ev) := by
  intro behav R t ev h e hnd hmem hb hothers
  refine ⟨rfl, ?_, ?_, ?_⟩
  · intro h' hm'
    rw [countInvokes_emit]
    exact List.count_eq_one_of_mem hnd hm'
  · rw [countEmits_error_emitBody]
    by_cases ht : t = EvType.error
    · subst ht
      simp
    · rw [if_neg ht]
      have hsame : ((R t).map fun a =>
          if t ≠ EvType.error ∧ (behav a ev).isSome then 1 else 0) =
          (R t).map fun a => if (behav a ev).isSome then 1 else 0 :=
        List.map_congr_left fun a _ => by simp [ht]
      rw [hsame]
      exact sum_single_failure behav ev (R t) h hmem hnd (by simp [hb]) hothers
  · intro ht
    exact error_event_mem_emit behav R t ev h e ht hmem hb

/-- Witness for C4: two handlers on message:received, the first throws; the
second still runs once, one error event is synthesized, carrying the
failure and the original event. -/
theorem emit_isolates_failing_handler_witness :
    countInvokes 1 (Event.messageReceived testMessage testMetadata)
      (emit failingBehavior twoHandlers EvType.messageReceived
        (Event.messageReceived testMessage testMetadata)) = 1 ∧
    countInvokes 2 (Event.messageReceived testMessage testMetadata)
      (emit failingBehavior twoHandlers EvType.messageReceived
        (Event.messageReceived testMessage testMetadata)) = 1 ∧
    countEmits EvType.error
      (((twoHandlers EvType.messageReceived).map
        (runHandler failingBehavior twoHandlers EvType.messageReceived
          (Event.messageReceived testMessage testMetadata))).flatten) = 1 ∧
    Action.emitted EvType.error
      (Event.error "Handler error"
        (some (Event.messageReceived testMessage testMetadata))) ∈
      emit failingBehavior twoHandlers EvType.messageReceived
        (Event.messageReceived testMessage testMetadata) := by
  obtain ⟨-, h1, h2, h3⟩ := emit_isolates_failing_handler failingBehavior
    twoHandlers EvType.messageReceived
    (Event.messageReceived testMessage testMetadata) 1 "Handler error"
    (by decide) (by decide) rfl
    (by
      intro h' hm hne
      have hh : h' = 1 ∨ h' = 2 := by simpa [twoHandlers] using hm
      rcases hh with rfl | rfl
      · exact absurd rfl hne
      · rfl)
  exact ⟨h1 1 (by decide), h1 2 (by decide), by simpa using h2, h3 (by simp)⟩

set_option maxRecDepth 100000 in
/-- The acceptance half of the signed-body property at concrete inputs: the
header carrying exactly the body's HMAC-SHA-256 hex digest under the
configured secret is accepted. -/
theorem verifySignature_accepts_valid_concrete :
    verifySignature (some "secret") "body"
      ("sha256=" ++ hmacSha256Hex "secret" "body") = Except.ok true := by
  rfl

/-- The acceptance half of the signed-body property in general: for every
non-empty secret and every body, the header built by prefixing sha256= to
the HMAC-SHA-256 hex digest of the body under that secret is accepted. -/
theorem verifySignature_accepts_valid (S B : String) (hS : S ≠ "") :
    verifySignature (some S) B ("sha256=" ++ hmacSha256Hex S B) =
      Except.ok true := by
  unfold verifySignature
  have h1 : secretFalsy (some S) = false := by
    simp [secretFalsy, hS]
  rw [h1]
  simp only [Bool.false_eq_true, if_false]
  have hdata : ("sha256=" ++ hmacSha256Hex S B).data =
      "sha256=".data ++ (hmacSha256Hex S B).data := by
    simp [String.data_append]
  have hne : ("sha256=" ++ hmacSha256Hex S B == "") = false := by
    apply beq_eq_false_iff_ne.mpr
    intro hcontra
    have := congrArg String.data hcontra
    rw [hdata] at this
    simp at this
  have hpre : ("sha256=".data.isPrefixOf ("sha256=" ++ hmacSha256Hex S B).data) = true := by
    rw [hdata]
    exact List.isPrefixOf_iff_prefix.mpr (List.prefix_append _ _)
  rw [hne, hpre]
  simp only [Bool.false_or, Bool.not_true, Bool.false_eq_true, if_false]
  have hdrop : ("sha256=" ++ hmacSha256Hex S B).data.drop 7 =
      (hmacSha256Hex S B).data := by
    rw [hdata]
    have h7 : ("sha256=".data).length = 7 := rfl
    rw [show (7 : Nat) = ("sha256=".data).length from h7.symm]
    exact List.drop_left _ _
  rw [hdrop]
  simp [timingSafeEqual]

/-- Witness for the general acceptance theorem at the concrete secret and
body of the fixtures. -/
theorem verifySignature_accepts_valid_witness :
    verifySignature (some "my-app-secret") "raw-body"
      ("sha256=" ++ hmacSha256Hex "my-app-secret" "raw-body") = Except.ok true :=
  verifySignature_accepts_valid "my-app-secret" "raw-body" (by decide)

end Webhook
